import Mathlib

/-!
Shallow embedding of src/extension.ts (manekinekko/vscode-deepseek).

Modelling conventions:
* JavaScript strings are Lean `String`s; fields that may be `undefined`
  are `Option`s; JavaScript truthiness tests are made explicit.
* Side effects (host chat stream writes, stdout writes, console logging,
  telemetry, the pull invocation) are recorded as a trace: a `List Eff`
  in program order.
* JavaScript number arithmetic in `pullModel` (`Math.round((completed /
  total) * 100)`) is modelled as exact rational rounding on naturals:
  round-half-up of 100*c/t is `(200*c + t) / (2*t)` in natural division.
* `vscode.l10n.t` is the identity on the default locale and is dropped.
-/

/-- JavaScript `s.startsWith(pre)`, modelled on the character list. -/
def jsStartsWith (s pre : String) : Bool :=
  pre.data.isPrefixOf s.data

/-- JavaScript truthiness of a possibly-undefined string: `undefined` and
the empty string are falsy. -/
def jsTruthyStr : Option String → Bool
  | none => false
  | some s => !(s == "")

/-- JavaScript truthiness of a possibly-undefined number: `undefined` and
0 are falsy (byte counts are naturals here). -/
def jsTruthyNat : Option Nat → Bool
  | none => false
  | some n => !(n == 0)

/-- JavaScript `a || b` on possibly-undefined strings: `a` when truthy,
else `b`. -/
def jsOrStr (a b : Option String) : Option String :=
  if jsTruthyStr a then a else b

/-- `const BASE_PROMPT` of extension.ts. -/
def BASE_PROMPT : String := "You are a helpful assistant."

/-- `const OLLAMA_HOST` of extension.ts. -/
def OLLAMA_HOST : String := "http://localhost:11434"

/-- `const MODEL` of extension.ts. -/
def MODEL : String := "deepseek-coder:1.3b"

/-- `const HIDDEN_ERROR_MESSAGE_PLACEHOLDER` of extension.ts: the sentinel
marker prefixed to rendered connectivity-error text. -/
def HIDDEN_ERROR_MESSAGE_PLACEHOLDER : String := "&nbsp;"

/-- A message sent to the model server: `{role, content}`. -/
structure Msg where
  role : String
  content : String
deriving DecidableEq

/-- A prior turn of the host-owned chat history. `request` is
`vscode.ChatRequestTurn` (holds the prompt), `response` is
`vscode.ChatResponseTurn` (holds the markdown part values), and `unknown`
stands for any other host-supplied turn variant, which the adapter
skips. -/
inductive Turn where
  | request (prompt : String)
  | response (parts : List String)
  | unknown
deriving DecidableEq

/-- One event of the streaming pull response (`part` in `pullModel`):
status text, optional digest, optional completed/total byte counts. -/
structure ProgressPart where
  status : String
  digest : Option String
  completed : Option Nat
  total : Option Nat
deriving DecidableEq

/-- The `message` field of a streaming chat chunk. -/
structure ChunkMessage where
  content : String
deriving DecidableEq

/-- One chunk of the streaming chat response. -/
structure ChatChunk where
  message : ChunkMessage
deriving DecidableEq

/-- A caught JavaScript error value as `handleError` inspects it:
`err.code`, `err.cause?.code` (collapsed to one optional string: `none`
when `cause` is absent or has no `code`), and `err.message`. -/
structure JsErr where
  code : Option String
  causeCode : Option String
  message : String
deriving DecidableEq

/-- One observable side effect, in program order. -/
inductive Eff where
  | streamProgress (s : String)
  | streamMarkdown (s : String)
  | stdoutWrite (s : String)
  | consoleNewline
  | consoleLog (s : String)
  | consoleLogObj
  | consoleError (s : String)
  | telemetryLogError (e : JsErr)
  | pullCall (model : String)
deriving DecidableEq

/-- An installed model as returned by `ollama.list()` (only the `name`
field is read). -/
structure ModelInfo where
  name : String
deriving DecidableEq

/-- `{command: string}` metadata of the chat result. -/
structure ChatResultMetadata where
  command : String
deriving DecidableEq

/-- The `IAgentChatResult` returned to the host per turn. -/
structure IAgentChatResult where
  metadata : ChatResultMetadata
deriving DecidableEq

/-- Percent computation of `pullModel`: 0 unless both `completed` and
`total` are truthy, else `Math.round((completed / total) * 100)`,
modelled as exact round-half-up `(200*c + t) / (2*t)`. -/
def percent (p : ProgressPart) : Nat :=
  if jsTruthyNat p.completed && jsTruthyNat p.total then
    (200 * p.completed.getD 0 + p.total.getD 0) / (2 * p.total.getD 0)
  else 0

/-- One iteration of the `for await` loop of `pullModel`, threading the
`currentDigestDone` flag: returns the new flag and the effects of this
iteration. -/
def pullStep (done : Bool) (p : ProgressPart) : Bool × List Eff :=
  if jsTruthyStr p.digest then
    let pc := percent p
    let write := Eff.stdoutWrite (p.status ++ " " ++ toString pc ++ "%...")
    if pc == 100 && !done then
      (true, [write, Eff.consoleNewline])
    else
      (false, [write])
  else
    (done, [Eff.streamProgress (p.status ++ "...\n"), Eff.consoleLog p.status])

/-- The `for await` loop of `pullModel` over the whole event stream. -/
def pullGo : Bool → List ProgressPart → List Eff
  | _, [] => []
  | done, p :: rest => (pullStep done p).2 ++ pullGo (pullStep done p).1 rest

/-- `pullModel(ollama, model, stream)`: the initial manifest log, the
event loop starting with `currentDigestDone = false`, then the final
download-complete notifications. -/
def pullModel (model : String) (parts : List ProgressPart) : List Eff :=
  Eff.consoleLog ("Pulling latest model " ++ model ++ "'s manifest...")
    :: (pullGo false parts
      ++ [Eff.streamProgress "Download complete!\n",
          Eff.consoleLog "Download complete!"])

/-- `assertPullModel(ollama, model, stream)`: if no installed model name
starts with the requested name, emit three progress notifications and
pull (the `pullCall` marker records the invocation, followed by the
pull's own effects); otherwise do nothing. -/
def assertPullModel (models : List ModelInfo) (model : String)
    (parts : List ProgressPart) : List Eff :=
  if ((models.map (fun m => m.name)).filter
      (fun m => jsStartsWith m model)).length = 0 then
    [Eff.streamProgress ("Model " ++ model ++ " not found.\n"),
     Eff.streamProgress "Installing model.\n",
     Eff.streamProgress "This might take a few minutes.\n",
     Eff.pullCall model] ++ pullModel model parts
  else []

/-- The `fullMessage` accumulation of `appendAssistantHistory` over the
parts of one assistant turn: parts whose value starts with the sentinel
marker are skipped, the rest are appended in order. -/
def fullMessageOf (parts : List String) : String :=
  parts.foldl
    (fun acc v =>
      if jsStartsWith v HIDDEN_ERROR_MESSAGE_PLACEHOLDER then acc
      else acc ++ v) ""

/-- `appendAssistantHistory(context)`: project the host history into the
flat message list. A response turn contributes one assistant message
when its non-sentinel concatenation is nonempty (JavaScript
`if (fullMessage)`), a request turn contributes one user message, any
other variant contributes nothing. -/
def appendAssistantHistory : List Turn → List Msg
  | [] => []
  | Turn.response parts :: rest =>
      (if fullMessageOf parts = "" then []
       else [{ role := "assistant", content := fullMessageOf parts }])
        ++ appendAssistantHistory rest
  | Turn.request p :: rest =>
      { role := "user", content := p } :: appendAssistantHistory rest
  | Turn.unknown :: rest => appendAssistantHistory rest

/-- The `messages` array built in `agentHandler`: base prompt, projected
history, then the new user prompt. -/
def buildMessages (hist : List Turn) (prompt : String) : List Msg :=
  { role := "user", content := BASE_PROMPT }
    :: (appendAssistantHistory hist
      ++ [{ role := "user", content := prompt }])

/-- The code shown in the connectivity message:
`(err.code || err.cause?.code) || 'UNKNOWN'`. -/
def errCodeDisplay (e : JsErr) : String :=
  (jsOrStr (jsOrStr e.code e.causeCode) (some "UNKNOWN")).getD ""

/-- The branch condition of `handleError`:
`err.code === "ERR_INVALID_URL" || err.cause?.code === "ECONNREFUSED"`. -/
def isConnErr (e : JsErr) : Bool :=
  e.code == some "ERR_INVALID_URL" || e.causeCode == some "ECONNREFUSED"

/-- The constant text of the connectivity message up to the first
occurrence of the host. -/
def connBody1 : String :=
  "I'm sorry, I cannot connect to the Ollama server.\n\nPlease check the following:\n\n- The Ollama app is installed and running. Visit [ollama.com](https://ollama.com) for more details.\n- The Ollama server is running at ["

/-- The constant text of the connectivity message between the second
occurrence of the host and the error message. -/
def connBody2 : String :=
  ")\n- The Ollama server URL is correct in your [settings.json](https://code.visualstudio.com/docs/getstarted/settings): `deepseek.ollama.host` \n- The Ollama server is accessible from this network.\n\nHere is the error message: `"

/-- The connectivity-branch markdown message of `handleError`: sentinel
marker, remediation text naming the configured host twice, then the raw
error message and displayed code. -/
def connectivityMsg (host : String) (e : JsErr) : String :=
  HIDDEN_ERROR_MESSAGE_PLACEHOLDER ++ connBody1 ++ host ++ "](" ++ host
    ++ connBody2 ++ e.message ++ " (code: " ++ errCodeDisplay e ++ ")`"

/-- The generic fallback markdown message of `handleError`. -/
def genericMsg : String :=
  "I'm sorry, I can't help with that. Can I help with something else?"

/-- `handleError(logger, err, stream)`: log to telemetry, echo the error
object to the console, then render one of the two canned messages. -/
def handleError (host : String) (e : JsErr) : List Eff :=
  [Eff.telemetryLogError e, Eff.consoleLogObj]
    ++ (if isConnErr e then [Eff.streamMarkdown (connectivityMsg host e)]
        else [Eff.streamMarkdown genericMsg])

/-- The streaming chat call as observed by the handler: the chunks that
were yielded before the stream ended, and the error (if any) that ended
it early — thrown by `ollama.chat` itself or while reading. -/
structure ChatStream where
  chunks : List ChatChunk
  err : Option JsErr
deriving DecidableEq

/-- The observable run of the `streamResponse` generator: console logs
emitted before the first yield, the yielded chunks (forwarded
unchanged), and the effects after the last yield — the swallowed error
is only echoed to the console via `console.error(err.message)`. -/
structure StreamRun where
  pre : List Eff
  chunks : List ChatChunk
  post : List Eff

/-- `streamResponse(ollama, model, messages, tools)` as a trace. -/
def streamResponse (model host : String) (chat : ChatStream) : StreamRun :=
  { pre := [Eff.consoleLog ("Using model: " ++ model),
            Eff.consoleLog (host ++ "/api/chat"),
            Eff.consoleLogObj, Eff.consoleLogObj],
    chunks := chat.chunks,
    post := match chat.err with
      | some e => [Eff.consoleError e.message]
      | none => [] }

/-- The effects of the chat-relay portion of `agentHandler`: the
generator's opening logs, one `stream.markdown(fragment.message.content)`
per chunk in arrival order, then the generator's trailing effects. -/
def relayEffects (model host : String) (chat : ChatStream) : List Eff :=
  (streamResponse model host chat).pre
    ++ (streamResponse model host chat).chunks.map
        (fun c => Eff.streamMarkdown c.message.content)
    ++ (streamResponse model host chat).post

/-- `agentHandler` per turn: when some step before the chat loop throws
(`preErr`), the catch block runs `handleError`; otherwise the relay
runs. Either way the handler returns `{metadata: {command: ""}}`. -/
def agentHandler (model host : String) (preErr : Option JsErr)
    (chat : ChatStream) : List Eff × IAgentChatResult :=
  match preErr with
  | some e => (handleError host e, { metadata := { command := "" } })
  | none => (relayEffects model host chat, { metadata := { command := "" } })

/-- The texts written to the host stream via `stream.progress`. -/
def streamProgressMsgs (effs : List Eff) : List String :=
  effs.filterMap (fun eff => match eff with
    | Eff.streamProgress s => some s
    | _ => none)

/-- The texts written to the host stream via `stream.markdown`. -/
def markdownMsgs (effs : List Eff) : List String :=
  effs.filterMap (fun eff => match eff with
    | Eff.streamMarkdown s => some s
    | _ => none)

/-- The texts written to the process standard output. -/
def stdoutMsgs (effs : List Eff) : List String :=
  effs.filterMap (fun eff => match eff with
    | Eff.stdoutWrite s => some s
    | _ => none)

/-- How many line breaks (`console.log()`) a trace contains. -/
def countNL (effs : List Eff) : Nat :=
  effs.countP (fun eff => match eff with
    | Eff.consoleNewline => true
    | _ => false)

/-- How many pull invocations a trace contains. -/
def countPullCalls (effs : List Eff) : Nat :=
  effs.countP (fun eff => match eff with
    | Eff.pullCall _ => true
    | _ => false)

/-- How many telemetry error events a trace contains. -/
def countTelemetryErr (effs : List Eff) : Nat :=
  effs.countP (fun eff => match eff with
    | Eff.telemetryLogError _ => true
    | _ => false)

/-- The prompt of a user turn, `none` for other turns. -/
def userPromptOf : Turn → Option String
  | Turn.request p => some p
  | _ => none

/-! Helper lemmas shared by the claim theorems. -/


theorem jsStartsWith_append (a b : String) : jsStartsWith (a ++ b) a = true := by
  simp [jsStartsWith, String.data_append]

theorem foldl_append_shift (l : List String) :
    ∀ a b : String, l.foldl (fun r s => r ++ s) (a ++ b) = a ++ l.foldl (fun r s => r ++ s) b := by
  induction l with
  | nil => intro a b; rfl
  | cons c t ih =>
      intro a b
      simp only [List.foldl_cons, String.append_assoc, ih]

theorem join_cons (s : String) (l : List String) :
    String.join (s :: l) = s ++ String.join l := by
  have h := foldl_append_shift l s ""
  simp only [String.join, List.foldl_cons, String.empty_append]
  simpa [String.append_empty] using h

theorem fullMessageOf_eq_join (parts : List String) :
    fullMessageOf parts
      = String.join (parts.filter
          (fun v => !jsStartsWith v HIDDEN_ERROR_MESSAGE_PLACEHOLDER)) := by
  have aux : ∀ (ps : List String) (acc : String),
      ps.foldl (fun acc v =>
        if jsStartsWith v HIDDEN_ERROR_MESSAGE_PLACEHOLDER then acc else acc ++ v) acc
        = acc ++ String.join (ps.filter
            (fun v => !jsStartsWith v HIDDEN_ERROR_MESSAGE_PLACEHOLDER)) := by
    intro ps
    induction ps with
    | nil => intro acc; simp [String.join, String.append_empty]
    | cons v t ih =>
        intro acc
        by_cases hv : jsStartsWith v HIDDEN_ERROR_MESSAGE_PLACEHOLDER = true
        · simp [List.foldl_cons, hv, List.filter_cons, ih]
        · simp only [Bool.not_eq_true] at hv
          simp [List.foldl_cons, hv, List.filter_cons, ih, join_cons, String.append_assoc]
  have h := aux parts ""
  simpa [fullMessageOf, String.empty_append] using h

theorem countNL_append (a b : List Eff) : countNL (a ++ b) = countNL a + countNL b := by
  simp [countNL, List.countP_append]

theorem countNL_pullGo_replicate (P : ProgressPart)
    (hd : jsTruthyStr P.digest = true) (h100 : percent P = 100) :
    ∀ n : Nat,
      countNL (pullGo false (List.replicate n P)) = (n + 1) / 2
      ∧ countNL (pullGo true (List.replicate n P)) = n / 2 := by
  intro n
  induction n with
  | zero => constructor <;> rfl
  | succ n ih =>
      have hstepF : pullStep false P = (true, [Eff.stdoutWrite (P.status ++ " " ++ toString (percent P) ++ "%..."), Eff.consoleNewline]) := by
        simp [pullStep, hd, h100]
      have hstepT : pullStep true P = (false, [Eff.stdoutWrite (P.status ++ " " ++ toString (percent P) ++ "%...")]) := by
        simp [pullStep, hd, h100]
      constructor
      · rw [List.replicate_succ, pullGo, hstepF]
        rw [countNL_append]
        have : countNL [Eff.stdoutWrite (P.status ++ " " ++ toString (percent P) ++ "%..."), Eff.consoleNewline] = 1 := rfl
        rw [this, ih.2]
        omega
      · rw [List.replicate_succ, pullGo, hstepT]
        rw [countNL_append]
        have : countNL [Eff.stdoutWrite (P.status ++ " " ++ toString (percent P) ++ "%...")] = 0 := rfl
        rw [this, ih.1]
        omega

theorem countPullCalls_pullStep (done : Bool) (p : ProgressPart) :
    countPullCalls (pullStep done p).2 = 0 := by
  unfold pullStep
  split
  · dsimp only
    split <;> rfl
  · rfl

theorem countPullCalls_append (a b : List Eff) :
    countPullCalls (a ++ b) = countPullCalls a + countPullCalls b := by
  simp [countPullCalls, List.countP_append]

theorem countPullCalls_pullGo (parts : List ProgressPart) :
    ∀ done : Bool, countPullCalls (pullGo done parts) = 0 := by
  induction parts with
  | nil => intro done; rfl
  | cons p t ih =>
      intro done
      rw [pullGo, countPullCalls_append, countPullCalls_pullStep, ih]

theorem countPullCalls_pullModel (model : String) (parts : List ProgressPart) :
    countPullCalls (pullModel model parts) = 0 := by
  simp [pullModel, countPullCalls, List.countP_append, List.countP_cons]
  have := countPullCalls_pullGo parts false
  simpa [countPullCalls] using this

theorem streamProgressMsgs_append (a b : List Eff) :
    streamProgressMsgs (a ++ b) = streamProgressMsgs a ++ streamProgressMsgs b := by
  simp [streamProgressMsgs, List.filterMap_append]

theorem stdoutMsgs_append (a b : List Eff) :
    stdoutMsgs (a ++ b) = stdoutMsgs a ++ stdoutMsgs b := by
  simp [stdoutMsgs, List.filterMap_append]

theorem pullStep_projections (done : Bool) (p : ProgressPart) :
    streamProgressMsgs (pullStep done p).2
        = (if jsTruthyStr p.digest then [] else [p.status ++ "...\n"])
    ∧ stdoutMsgs (pullStep done p).2
        = (if jsTruthyStr p.digest then
            [p.status ++ " " ++ toString (percent p) ++ "%..."] else []) := by
  by_cases hd : jsTruthyStr p.digest = true
  · simp only [pullStep, hd, if_true]
    constructor <;> (split <;> simp [streamProgressMsgs, stdoutMsgs])
  · simp only [Bool.not_eq_true] at hd
    simp [pullStep, hd, streamProgressMsgs, stdoutMsgs]

theorem pullGo_projections (parts : List ProgressPart) :
    ∀ done : Bool,
      streamProgressMsgs (pullGo done parts)
          = (parts.filter (fun p => !jsTruthyStr p.digest)).map
              (fun p => p.status ++ "...\n")
      ∧ stdoutMsgs (pullGo done parts)
          = (parts.filter (fun p => jsTruthyStr p.digest)).map
              (fun p => p.status ++ " " ++ toString (percent p) ++ "%...") := by
  induction parts with
  | nil => intro done; constructor <;> rfl
  | cons p t ih =>
      intro done
      rw [pullGo]
      obtain ⟨h1, h2⟩ := pullStep_projections done p
      obtain ⟨ih1, ih2⟩ := ih (pullStep done p).1
      constructor
      · rw [streamProgressMsgs_append, h1, ih1]
        by_cases hd : jsTruthyStr p.digest = true
        · simp [hd, List.filter_cons]
        · simp only [Bool.not_eq_true] at hd
          simp [hd, List.filter_cons]
      · rw [stdoutMsgs_append, h2, ih2]
        by_cases hd : jsTruthyStr p.digest = true
        · simp [hd, List.filter_cons]
        · simp only [Bool.not_eq_true] at hd
          simp [hd, List.filter_cons]

theorem countNL_pullModel (model : String) (parts : List ProgressPart) :
    countNL (pullModel model parts) = countNL (pullGo false parts) := by
  simp [pullModel, countNL, List.countP_cons, List.countP_append]

theorem percent_of_counts (p : ProgressPart) (c t : Nat)
    (hc : p.completed = some c) (ht : p.total = some t) (htz : t ≠ 0) :
    percent p = (200 * c + t) / (2 * t) := by
  by_cases hc0 : c = 0
  · subst hc0
    have h0 : percent p = 0 := by
      simp [percent, hc, ht, jsTruthyNat]
    rw [h0, Nat.mul_zero, Nat.zero_add, Nat.div_eq_of_lt (by omega)]
  · simp [percent, hc, ht, jsTruthyNat, hc0, htz]

theorem percent_of_missing (p : ProgressPart)
    (h : p.completed = none ∨ p.total = none) : percent p = 0 := by
  cases h with
  | inl h => simp [percent, jsTruthyNat, h]
  | inr h => simp [percent, jsTruthyNat, h]

theorem percent_complete_eq_100 (status dig : String) (c : Nat)
    (hc : c ≠ 0) :
    percent { status := status, digest := some dig,
              completed := some c, total := some c } = 100 := by
  rw [percent_of_counts _ c c rfl rfl hc]
  exact Nat.div_eq_of_lt_le (by omega) (by omega)

/-! Claim theorems. -/

/-- A pull-progress event for a fully downloaded digest layer, used by
the C2 counterexample. -/
def dupDone : ProgressPart :=
  { status := "pulling sha256:aaa", digest := some "sha256:aaa",
    completed := some 10, total := some 10 }

/-- C2 counterexample: on three consecutive duplicate 100% events for
the same digest, the line break fires twice, not exactly once — the
`else` branch clears `currentDigestDone` on the second event, so the
third fires again. -/
theorem pullModel_duplicate_100_counterexample :
    countNL (pullModel "deepseek-coder:1.3b" [dupDone, dupDone, dupDone]) = 2
    ∧ countNL (pullModel "deepseek-coder:1.3b" [dupDone, dupDone, dupDone]) ≠ 1 := by
  decide

/-- C2 (amended): for a digest event, percent is the round-half-up of
completed/total × 100 whenever both counts are given (and the total is
nonzero), and 0 when either is absent; the line break fires on a 100%
digest event exactly when the completion flag is unset, and because
every non-firing digest event clears the flag, a run of n consecutive
duplicate 100% events for the same digest fires the line break
(n + 1) / 2 times (rounding up), not exactly once. -/
theorem pullModel_percent_and_linebreaks :
    (∀ (p : ProgressPart) (c t : Nat),
        p.completed = some c → p.total = some t → t ≠ 0 →
        percent p = (200 * c + t) / (2 * t))
    ∧ (∀ p : ProgressPart, p.completed = none ∨ p.total = none →
        percent p = 0)
    ∧ (∀ (model status dig : String) (c n : Nat), dig ≠ "" → c ≠ 0 →
        countNL (pullModel model (List.replicate n
          { status := status, digest := some dig,
            completed := some c, total := some c })) = (n + 1) / 2) := by
  refine ⟨percent_of_counts, percent_of_missing, ?_⟩
  intro model status dig c n hd hc
  rw [countNL_pullModel]
  have hdig : jsTruthyStr (some dig : Option String) = true := by
    simp [jsTruthyStr, hd]
  exact (countNL_pullGo_replicate _ hdig (percent_complete_eq_100 status dig c hc) n).1

/-- Witness for C2 (amended): concrete percent value and concrete break
count over three duplicate completion events. -/
theorem pullModel_percent_and_linebreaks_witness :
    percent { status := "pulling", digest := some "sha256:bbb",
              completed := some 5, total := some 10 } = 50
    ∧ countNL (pullModel "m" (List.replicate 3
        { status := "pulling", digest := some "sha256:bbb",
          completed := some 10, total := some 10 })) = 2 := by
  obtain ⟨h1, _h2, h3⟩ := pullModel_percent_and_linebreaks
  constructor
  · rw [h1 _ 5 10 rfl rfl (by decide)]
  · rw [h3 "m" "pulling" "sha256:bbb" 10 3 (by decide) (by decide)]

/-- C10: during a pull, every digest-bearing event writes only to the
process standard output; the host chat stream receives exactly the
progress lines of the digest-less events, in order, followed by the
final download-complete notification. -/
theorem pullModel_digest_frame (model : String) (parts : List ProgressPart) :
    streamProgressMsgs (pullModel model parts)
        = (parts.filter (fun p => !jsTruthyStr p.digest)).map
            (fun p => p.status ++ "...\n") ++ ["Download complete!\n"]
    ∧ stdoutMsgs (pullModel model parts)
        = (parts.filter (fun p => jsTruthyStr p.digest)).map
            (fun p => p.status ++ " " ++ toString (percent p) ++ "%...") := by
  obtain ⟨h1, h2⟩ := pullGo_projections parts false
  constructor
  · have e1 : streamProgressMsgs (pullModel model parts)
        = streamProgressMsgs (pullGo false parts) ++ ["Download complete!\n"] := by
      simp [pullModel, streamProgressMsgs, List.filterMap_append, List.filterMap_cons]
    rw [e1, h1]
  · have e2 : stdoutMsgs (pullModel model parts)
        = stdoutMsgs (pullGo false parts) := by
      simp [stdoutMsgs, pullModel, List.filterMap_append, List.filterMap_cons]
    rw [e2, h2]

/-- C6: when no installed model name passes the name-prefix test against
the requested name, the handler emits the three progress notifications
and then invokes pull exactly once; when some name passes, pull is not
invoked. -/
theorem assertPullModel_pull_once (models : List ModelInfo) (model : String)
    (parts : List ProgressPart) :
    ((∀ mi ∈ models, jsStartsWith mi.name model = false) →
        assertPullModel models model parts
          = [Eff.streamProgress ("Model " ++ model ++ " not found.\n"),
             Eff.streamProgress "Installing model.\n",
             Eff.streamProgress "This might take a few minutes.\n",
             Eff.pullCall model] ++ pullModel model parts
        ∧ countPullCalls (assertPullModel models model parts) = 1)
    ∧ ((∃ mi ∈ models, jsStartsWith mi.name model = true) →
        countPullCalls (assertPullModel models model parts) = 0) := by
  constructor
  · intro h
    have hc : ((models.map (fun m => m.name)).filter
        (fun m => jsStartsWith m model)).length = 0 := by
      rw [List.length_eq_zero, List.filter_eq_nil_iff]
      intro a ha
      obtain ⟨mi, hmi, rfl⟩ := List.mem_map.mp ha
      simp [h mi hmi]
    have he : assertPullModel models model parts
        = [Eff.streamProgress ("Model " ++ model ++ " not found.\n"),
           Eff.streamProgress "Installing model.\n",
           Eff.streamProgress "This might take a few minutes.\n",
           Eff.pullCall model] ++ pullModel model parts := by
      simp [assertPullModel, hc]
    refine ⟨he, ?_⟩
    rw [he, countPullCalls_append, countPullCalls_pullModel]
    rfl
  · rintro ⟨mi, hmi, hpre⟩
    have hc : ((models.map (fun m => m.name)).filter
        (fun m => jsStartsWith m model)).length ≠ 0 := by
      intro hlen
      rw [List.length_eq_zero, List.filter_eq_nil_iff] at hlen
      exact absurd hpre (by simpa using hlen mi.name (List.mem_map.mpr ⟨mi, hmi, rfl⟩))
    simp [assertPullModel, hc, countPullCalls]

/-- Witness for C6: with only an unrelated model installed, the trace is
the three notifications and one pull; with a matching name installed,
no pull happens. -/
theorem assertPullModel_pull_once_witness :
    assertPullModel [{ name := "llama3:8b" }] "deepseek-coder:1.3b" []
        = [Eff.streamProgress "Model deepseek-coder:1.3b not found.\n",
           Eff.streamProgress "Installing model.\n",
           Eff.streamProgress "This might take a few minutes.\n",
           Eff.pullCall "deepseek-coder:1.3b"]
          ++ pullModel "deepseek-coder:1.3b" []
    ∧ countPullCalls (assertPullModel [{ name := "llama3:8b" }]
        "deepseek-coder:1.3b" []) = 1
    ∧ countPullCalls (assertPullModel [{ name := "deepseek-coder:1.3b-q4" }]
        "deepseek-coder:1.3b" []) = 0 := by
  obtain ⟨ha, hb⟩ := (assertPullModel_pull_once [{ name := "llama3:8b" }]
    "deepseek-coder:1.3b" []).1 (by decide)
  refine ⟨?_, hb, ?_⟩
  · rw [ha]
    rfl
  · exact (assertPullModel_pull_once [{ name := "deepseek-coder:1.3b-q4" }]
      "deepseek-coder:1.3b" []).2 (by decide)

/-- A caught error whose direct code is "ECONNREFUSED" (as a direct fetch
failure without a nested cause would carry), used by the C1
counterexample. -/
def eDirectRefused : JsErr :=
  { code := some "ECONNREFUSED", causeCode := none,
    message := "connect ECONNREFUSED 127.0.0.1:11434" }

/-- C1 counterexample: an error whose code, taken directly, is the
connection-refused code satisfies the claim's branch condition, yet the
classifier renders the generic fallback (no host, no sentinel marker) —
the code tests ERR_INVALID_URL only directly and ECONNREFUSED only on
the nested cause. -/
theorem handleError_direct_refused_counterexample :
    eDirectRefused.code = some "ECONNREFUSED"
    ∧ handleError OLLAMA_HOST eDirectRefused
        = [Eff.telemetryLogError eDirectRefused, Eff.consoleLogObj,
           Eff.streamMarkdown genericMsg]
    ∧ jsStartsWith genericMsg HIDDEN_ERROR_MESSAGE_PLACEHOLDER = false := by
  exact ⟨rfl, rfl, by decide⟩

/-- C1 (amended): the classifier renders the connectivity-branch message
(naming the configured host, including the raw error message and the
displayed code, and prefixed with the sentinel marker) if and only if
the error's direct code is "ERR_INVALID_URL" or its nested cause's code
is "ECONNREFUSED"; every other error — including a direct
"ECONNREFUSED" — gets the generic fallback, which is not prefixed with
the sentinel marker. -/
theorem handleError_classification (host : String) (e : JsErr) :
    (isConnErr e = true ↔
      (e.code = some "ERR_INVALID_URL" ∨ e.causeCode = some "ECONNREFUSED"))
    ∧ (isConnErr e = true →
        handleError host e
          = [Eff.telemetryLogError e, Eff.consoleLogObj,
             Eff.streamMarkdown (connectivityMsg host e)]
        ∧ jsStartsWith (connectivityMsg host e)
            HIDDEN_ERROR_MESSAGE_PLACEHOLDER = true
        ∧ (∃ a b, connectivityMsg host e = a ++ host ++ b)
        ∧ (∃ a b, connectivityMsg host e = a ++ e.message ++ b)
        ∧ (∃ a b, connectivityMsg host e = a ++ errCodeDisplay e ++ b))
    ∧ (isConnErr e = false →
        handleError host e
          = [Eff.telemetryLogError e, Eff.consoleLogObj,
             Eff.streamMarkdown genericMsg]
        ∧ jsStartsWith genericMsg HIDDEN_ERROR_MESSAGE_PLACEHOLDER = false) := by
  refine ⟨?_, ?_, ?_⟩
  · simp [isConnErr]
  · intro h
    refine ⟨by simp [handleError, h], ?_, ?_, ?_, ?_⟩
    · simp [jsStartsWith, connectivityMsg, String.data_append, List.append_assoc]
    · exact ⟨HIDDEN_ERROR_MESSAGE_PLACEHOLDER ++ connBody1,
        "](" ++ host ++ connBody2 ++ e.message ++ " (code: "
          ++ errCodeDisplay e ++ ")`",
        by simp [connectivityMsg, String.append_assoc]⟩
    · exact ⟨HIDDEN_ERROR_MESSAGE_PLACEHOLDER ++ connBody1 ++ host ++ "]("
          ++ host ++ connBody2,
        " (code: " ++ errCodeDisplay e ++ ")`",
        by simp [connectivityMsg, String.append_assoc]⟩
    · exact ⟨HIDDEN_ERROR_MESSAGE_PLACEHOLDER ++ connBody1 ++ host ++ "]("
          ++ host ++ connBody2 ++ e.message ++ " (code: ",
        ")`",
        by simp [connectivityMsg, String.append_assoc]⟩
  · intro h
    exact ⟨by simp [handleError, h], by decide⟩

/-- Witness for C1 (amended): a concrete invalid-URL error takes the
connectivity branch and the rendered message carries the sentinel
marker. -/
theorem handleError_classification_witness :
    handleError "http://localhost:11434"
        { code := some "ERR_INVALID_URL", causeCode := none,
          message := "Invalid URL" }
      = [Eff.telemetryLogError
          { code := some "ERR_INVALID_URL", causeCode := none,
            message := "Invalid URL" },
         Eff.consoleLogObj,
         Eff.streamMarkdown (connectivityMsg "http://localhost:11434"
          { code := some "ERR_INVALID_URL", causeCode := none,
            message := "Invalid URL" })]
    ∧ jsStartsWith (connectivityMsg "http://localhost:11434"
        { code := some "ERR_INVALID_URL", causeCode := none,
          message := "Invalid URL" })
        HIDDEN_ERROR_MESSAGE_PLACEHOLDER = true := by
  have h := (handleError_classification "http://localhost:11434"
    { code := some "ERR_INVALID_URL", causeCode := none,
      message := "Invalid URL" }).2.1 (by decide)
  exact ⟨h.1, h.2.1⟩

/-- C3: an assistant turn contributes one assistant message whose
content is the in-order concatenation of exactly its non-sentinel
parts, and contributes nothing when that concatenation is empty — in
particular when every part is sentinel-prefixed. -/
theorem appendAssistantHistory_assistant_turn (hist : List Turn)
    (parts : List String) :
    appendAssistantHistory (Turn.response parts :: hist)
        = (if fullMessageOf parts = "" then []
           else [{ role := "assistant", content := fullMessageOf parts }])
          ++ appendAssistantHistory hist
    ∧ fullMessageOf parts
        = String.join (parts.filter
            (fun v => !jsStartsWith v HIDDEN_ERROR_MESSAGE_PLACEHOLDER))
    ∧ ((∀ v ∈ parts, jsStartsWith v HIDDEN_ERROR_MESSAGE_PLACEHOLDER = true) →
        appendAssistantHistory (Turn.response parts :: hist)
          = appendAssistantHistory hist) := by
  refine ⟨rfl, fullMessageOf_eq_join parts, ?_⟩
  intro h
  have hnil : parts.filter
      (fun v => !jsStartsWith v HIDDEN_ERROR_MESSAGE_PLACEHOLDER) = [] := by
    rw [List.filter_eq_nil_iff]
    intro a ha
    simp [h a ha]
  have hempty : fullMessageOf parts = "" := by
    rw [fullMessageOf_eq_join, hnil]
    rfl
  simp [appendAssistantHistory, hempty]

/-- Witness for C3: a single all-sentinel assistant turn produces no
message at all. -/
theorem appendAssistantHistory_assistant_turn_witness :
    jsStartsWith "&nbsp;I cannot connect"
        HIDDEN_ERROR_MESSAGE_PLACEHOLDER = true
    ∧ appendAssistantHistory [Turn.response ["&nbsp;I cannot connect"]] = [] := by
  refine ⟨by decide, ?_⟩
  exact (appendAssistantHistory_assistant_turn []
    ["&nbsp;I cannot connect"]).2.2 (by decide)

/-- C4: the user messages of the projected history are exactly the
prompts of the user turns, with exact content, one message per turn, in
original order. -/
theorem appendAssistantHistory_user_turns (hist : List Turn) :
    (appendAssistantHistory hist).filter (fun m => m.role == "user")
      = (hist.filterMap userPromptOf).map
          (fun p => { role := "user", content := p }) := by
  induction hist with
  | nil => rfl
  | cons t rest ih =>
      cases t with
      | request p =>
          simp [appendAssistantHistory, userPromptOf, List.filter_cons, ih]
      | response parts =>
          by_cases h : fullMessageOf parts = ""
          · simp [appendAssistantHistory, h, userPromptOf, ih]
          · simp [appendAssistantHistory, h, userPromptOf, List.filter_cons, ih]
      | unknown => simp [appendAssistantHistory, userPromptOf, ih]

theorem markdownMsgs_map_chunks (l : List ChatChunk) :
    markdownMsgs (l.map (fun c => Eff.streamMarkdown c.message.content))
      = l.map (fun c => c.message.content) := by
  induction l with
  | nil => rfl
  | cons c t ih => simp [markdownMsgs, List.filterMap_cons] at *; exact ih

/-- C5: the relay emits each chunk's text to the host output stream
individually and in arrival order — the markdown writes of a turn are
exactly the chunk contents, chunk by chunk; in particular a stream
yielding "Hel" then "lo" produces the writes "Hel" then "lo". -/
theorem streamResponse_relay_order (model host : String) (chat : ChatStream) :
    markdownMsgs (relayEffects model host chat)
        = chat.chunks.map (fun c => c.message.content)
    ∧ markdownMsgs (relayEffects model host
        { chunks := [{ message := { content := "Hel" } },
                     { message := { content := "lo" } }], err := none })
        = ["Hel", "lo"] := by
  constructor
  · have e1 : markdownMsgs (relayEffects model host chat)
        = markdownMsgs ((streamResponse model host chat).chunks.map
            (fun c => Eff.streamMarkdown c.message.content))
          ++ markdownMsgs (streamResponse model host chat).post := by
      simp [relayEffects, markdownMsgs, List.filterMap_append, streamResponse,
        List.filterMap_cons]
    have e2 : markdownMsgs (streamResponse model host chat).post = [] := by
      cases herr : chat.err <;> simp [streamResponse, herr, markdownMsgs]
    rw [e1, e2, markdownMsgs_map_chunks]
    simp [streamResponse]
  · rfl

/-- C7: every turn — with or without a failure in its steps — returns a
result whose metadata.command is the empty string. -/
theorem agentHandler_result_empty_command (model host : String)
    (preErr : Option JsErr) (chat : ChatStream) :
    ((agentHandler model host preErr chat).2).metadata.command = "" := by
  cases preErr <;> rfl

/-- The error ending the chat stream in the C8 counterexample. -/
def streamReadErr : JsErr :=
  { code := none, causeCode := none, message := "fetch failed" }

/-- C8 counterexample: a failure raised while reading the streaming chat
response is swallowed by the relay — the whole turn trace is the opening
console logs and one console echo of the message: no telemetry event is
logged and nothing is rendered to the user. -/
theorem stream_error_swallowed_counterexample :
    (agentHandler "deepseek-coder:1.3b" "http://localhost:11434" none
        { chunks := [], err := some streamReadErr }).1
      = [Eff.consoleLog "Using model: deepseek-coder:1.3b",
         Eff.consoleLog "http://localhost:11434/api/chat",
         Eff.consoleLogObj, Eff.consoleLogObj,
         Eff.consoleError "fetch failed"]
    ∧ countTelemetryErr ((agentHandler "deepseek-coder:1.3b"
        "http://localhost:11434" none
        { chunks := [], err := some streamReadErr }).1) = 0
    ∧ markdownMsgs ((agentHandler "deepseek-coder:1.3b"
        "http://localhost:11434" none
        { chunks := [], err := some streamReadErr }).1) = [] := by
  exact ⟨by decide, by decide, by decide⟩

/-- C8 (amended): a non-connectivity failure raised before the chat loop
is logged to telemetry and to the console and then the one generic
apology is rendered, in that order; a failure raised while opening or
reading the chat stream is swallowed by the relay: the turn emits no
telemetry event, the error's message is only echoed to the console, and
no apology is rendered. -/
theorem handleError_logging_and_stream_swallow (model host : String)
    (e : JsErr) (chat : ChatStream) :
    (isConnErr e = false →
        (agentHandler model host (some e) chat).1
          = [Eff.telemetryLogError e, Eff.consoleLogObj,
             Eff.streamMarkdown genericMsg])
    ∧ countTelemetryErr ((agentHandler model host none chat).1) = 0
    ∧ (∀ e2, chat.err = some e2 →
        Eff.consoleError e2.message ∈ (agentHandler model host none chat).1)
    ∧ ((∀ c ∈ chat.chunks, c.message.content ≠ genericMsg) →
        Eff.streamMarkdown genericMsg ∉ (agentHandler model host none chat).1) := by
  refine ⟨?_, ?_, ?_, ?_⟩
  · intro h
    simp [agentHandler, handleError, h]
  · cases herr : chat.err <;>
      simp [agentHandler, relayEffects, streamResponse, herr, countTelemetryErr,
        List.countP_append, List.countP_cons, List.countP_map, Function.comp]
  · intro e2 he2
    simp [agentHandler, relayEffects, streamResponse, he2, List.mem_append]
  · intro h
    cases herr : chat.err <;>
      simp [agentHandler, relayEffects, streamResponse, herr, List.mem_append,
        List.mem_map] <;>
      exact fun c hc hcg => h c hc hcg

/-- A chat stream that yields one chunk and then fails, used by the C8
witness. -/
def oneChunkThenErr : ChatStream :=
  { chunks := [{ message := { content := "Hi" } }],
    err := some streamReadErr }

/-- Witness for C8 (amended): a concrete pre-chat failure produces the
telemetry/console/apology trace, and a concrete streaming failure is
only echoed to the console, with no apology rendered. -/
theorem handleError_logging_and_stream_swallow_witness :
    (agentHandler "m" "h" (some streamReadErr)
        { chunks := [], err := none }).1
      = [Eff.telemetryLogError streamReadErr, Eff.consoleLogObj,
         Eff.streamMarkdown genericMsg]
    ∧ Eff.consoleError "fetch failed"
        ∈ (agentHandler "m" "h" none oneChunkThenErr).1
    ∧ Eff.streamMarkdown genericMsg
        ∉ (agentHandler "m" "h" none oneChunkThenErr).1 := by
  refine ⟨(handleError_logging_and_stream_swallow "m" "h" streamReadErr
      { chunks := [], err := none }).1 (by decide), ?_, ?_⟩
  · exact (handleError_logging_and_stream_swallow "m" "h" streamReadErr
      oneChunkThenErr).2.2.1 streamReadErr rfl
  · exact (handleError_logging_and_stream_swallow "m" "h" streamReadErr
      oneChunkThenErr).2.2.2 (by decide)

/-- C9: the message list passed to the single chat call is the preamble
message first, the history projection in the middle, and one message
carrying the new user prompt last. -/
theorem buildMessages_structure (hist : List Turn) (prompt : String) :
    buildMessages hist prompt
        = [{ role := "user", content := BASE_PROMPT }]
          ++ appendAssistantHistory hist
          ++ [{ role := "user", content := prompt }]
    ∧ (buildMessages hist prompt).head?
        = some { role := "user", content := BASE_PROMPT }
    ∧ (buildMessages hist prompt).getLast?
        = some { role := "user", content := prompt } := by
  refine ⟨by simp [buildMessages], rfl, ?_⟩
  rw [buildMessages, ← List.cons_append, List.getLast?_concat]
